import Mathlib

/-!
Verification of the character-art generation core of the Designs repository
(src/components/BinaryArtGenerator.tsx).  The numeric pipeline is embedded
over exact rationals: JavaScript arithmetic on the sampled pixel data is
modelled as arithmetic in the field of rationals, `Math.floor` as the
integer floor and `Math.round` as `round` (both round half up).
-/

namespace BinaryArt

/-- Constant from line 4: minimum font weight. -/
def MIN_WEIGHT : ℚ := 300

/-- Constant from line 5: maximum font weight. -/
def MAX_WEIGHT : ℚ := 700

/-- Constant from line 6: `MAX_WEIGHT - MIN_WEIGHT`. -/
def WEIGHT_RANGE : ℚ := MAX_WEIGHT - MIN_WEIGHT

/-- Constant from line 7: number of character levels. -/
def NUM_CHAR_LEVELS : ℤ := 14

/-- Constant from line 8: `256 / NUM_CHAR_LEVELS`. -/
def CHAR_LEVEL_SIZE : ℚ := 256 / (NUM_CHAR_LEVELS : ℚ)

/-- Whitespace recognised by the JavaScript string `trim` method (the
ASCII part of the class; the further Unicode space code points play no role
in any theorem below). -/
def isJSWhitespace (c : Char) : Bool :=
  c == ' ' || c == '\t' || c == '\n' || c == '\r' || c == '\x0b' || c == '\x0c'

/-- The JavaScript `String.prototype.trim`: strip whitespace from both
ends of the character list. -/
def trimJS (s : List Char) : List Char :=
  ((s.dropWhile isJSWhitespace).reverse.dropWhile isJSWhitespace).reverse

/-- Lines 66-68: `charInput.trim()`, split into single characters when
non-empty, with the fallback cycle `['0', '1']` (the second length check of
line 68 is kept even though it can never fire after line 67). -/
def effectiveCycle (charInput : List Char) : List Char :=
  let charString := trimJS charInput
  let customCharacters := if 0 < charString.length then charString else ['0', '1']
  if customCharacters.length = 0 then ['0', '1'] else customCharacters

/-- The source image: `naturalWidth` and `naturalHeight` of the decoded
`HTMLImageElement`. -/
structure Bitmap where
  naturalWidth : ℚ
  naturalHeight : ℚ
deriving DecidableEq

/-- Lines 70-71: `aspectRatio = naturalHeight / naturalWidth` (inlined)
and `resolutionHeight = Math.floor(resolution * aspectRatio * 0.55)`. -/
def resolutionHeight (resolution : ℤ) (img : Bitmap) : ℤ :=
  ⌊(resolution : ℚ) * (img.naturalHeight / img.naturalWidth) * 0.55⌋

/-- Line 87: flat index of a pixel in the RGBA byte array,
`i = (y * resolution + x) * 4`. -/
def pixelIndex (resolution x y : ℕ) : ℕ := (y * resolution + x) * 4

/-- Line 88: `luminance = 0.299*data[i] + 0.587*data[i+1] + 0.114*data[i+2]`.
The alpha byte at `i + 3` is never read. -/
def luminanceAt (data : ℕ → ℚ) (resolution x y : ℕ) : ℚ :=
  0.299 * data (pixelIndex resolution x y)
    + 0.587 * data (pixelIndex resolution x y + 1)
    + 0.114 * data (pixelIndex resolution x y + 2)

/-- Line 89: `effectiveLuminance = invertToggle ? (255 - luminance) : luminance`. -/
def effectiveLuminance (invertToggle : Bool) (lum : ℚ) : ℚ :=
  if invertToggle then 255 - lum else lum

/-- Line 91: `continuousWeight = MIN_WEIGHT + (effectiveLuminance / 255.0) * WEIGHT_RANGE`. -/
def continuousWeight (e : ℚ) : ℚ := MIN_WEIGHT + e / 255 * WEIGHT_RANGE

/-- Line 92: `finalWeight = Math.round(Math.max(MIN_WEIGHT, Math.min(MAX_WEIGHT, continuousWeight)))`. -/
def finalWeight (e : ℚ) : ℤ :=
  round (max MIN_WEIGHT (min MAX_WEIGHT (continuousWeight e)))

/-- Line 94: `opacity = Math.max(0.1, effectiveLuminance / 255.0)`. -/
def opacity (e : ℚ) : ℚ := max 0.1 (e / 255)

/-- Lines 96-97: the character level, floored and clamped to `[0, 13]`. -/
def charLevelIndex (e : ℚ) : ℤ :=
  max 0 (min (NUM_CHAR_LEVELS - 1) ⌊e / CHAR_LEVEL_SIZE⌋)

/-- Line 98: `densityChar = customCharacters[charLevelIndex % customCharacters.length]`.
The cycle handed to this function is always non-empty (see `effectiveCycle`),
so the default character of `getD` is never returned. -/
def selectChar (customCharacters : List Char) (e : ℚ) : Char :=
  customCharacters.getD (charLevelIndex e % (customCharacters.length : ℤ)).toNat '0'

/-- One glyph of the output: the character together with the inline style
values written into its span (lines 98-100). -/
structure GlyphCell where
  character : Char
  weight : ℤ
  opacity : ℚ
deriving DecidableEq

/-- Lines 88-100, the loop body producing one output cell from one sampled
luminance value. -/
def glyphCell (customCharacters : List Char) (invertToggle : Bool) (lum : ℚ) : GlyphCell :=
  let e := effectiveLuminance invertToggle lum
  { character := selectChar customCharacters e
    weight := finalWeight e
    opacity := opacity e }

/-- Lines 85-103: the row-major document built from the sampled pixel data,
`rows` rows of `resolution` cells each. -/
def artDocument (data : ℕ → ℚ) (customCharacters : List Char) (invertToggle : Bool)
    (resolution rows : ℕ) : List (List GlyphCell) :=
  (List.range rows).map fun y =>
    (List.range resolution).map fun x =>
      glyphCell customCharacters invertToggle (luminanceAt data resolution x y)

/-- The ways a generation run can fail.  The code raises only
`couldNotGetContext` (line 75) and `indexSizeError` (the `IndexSizeError`
`ctx.getImageData` throws when asked for a zero-width or zero-height read,
per the HTML canvas standard).  The constructors `invalidDimensions` and
`emptyCanvas` are the validation failures the design documentation demands
of this pipeline; they are included here as possible error values so the
theorems below can state that the code never produces them. -/
inductive GenError where
  | invalidDimensions
  | emptyCanvas
  | couldNotGetContext
  | indexSizeError
deriving DecidableEq

/-- Lines 64-103 inside the `try`: compute the cycle and the target
dimensions, obtain the 2d context, read the sampled pixels back and build
the document.  `ctx.getImageData` throws exactly when a requested dimension
is zero; the `for` loops run zero iterations for a negative bound, which
`Int.toNat` reproduces. -/
def runGeneration (charInput : List Char) (invertToggle : Bool) (resolution : ℤ)
    (img : Bitmap) (ctxAvailable : Bool) (data : ℕ → ℚ) :
    Except GenError (List (List GlyphCell)) :=
  let customCharacters := effectiveCycle charInput
  let rh := resolutionHeight resolution img
  if ctxAvailable = false then Except.error GenError.couldNotGetContext
  else if resolution = 0 ∨ rh = 0 then Except.error GenError.indexSizeError
  else Except.ok (artDocument data customCharacters invertToggle resolution.toNat rh.toNat)

/-- Message text of an error as it reaches line 110 (`error.message`); for
the canvas exception the DOMException name stands in for the
browser-dependent message text. -/
def errorText : GenError → String
  | GenError.invalidDimensions => "InvalidDimensions"
  | GenError.emptyCanvas => "EmptyCanvas"
  | GenError.couldNotGetContext => "Could not get canvas context"
  | GenError.indexSizeError => "IndexSizeError"

/-- The two status flavours of `showStatus` (line 25). -/
inductive StatusType where
  | success
  | error
deriving DecidableEq

/-- A status message as stored by `showStatus`. -/
structure Status where
  text : String
  type : StatusType
deriving DecidableEq

/-- What the `artOutputHtml` state holds: either one of the placeholder
markup strings, or a rendered document (the span markup of line 100,
kept structured). -/
inductive ArtOutput where
  | message (s : String)
  | document (doc : List (List GlyphCell))
deriving DecidableEq

/-- Line 61: the placeholder shown while a run is in progress. -/
def analyzingMsg : String :=
  "<p class=\"text-center text-blue-400 p-12\">Analyzing image and generating characters...</p>"

/-- The component state touched by a generation run. -/
structure GenState where
  artOutputHtml : ArtOutput
  isGenerated : Bool
  isGenerating : Bool
  statusMessage : Option Status
deriving DecidableEq

/-- Initial component state (lines 17-20; the initial prompt markup is
abridged to its visible text). -/
def initialState : GenState :=
  { artOutputHtml := ArtOutput.message
      "Upload an image and press Generate Binary Art to see your artwork here."
    isGenerated := false
    isGenerating := false
    statusMessage := none }

/-- Lines 25-27: `showStatus` stores a status message. -/
def showStatus (st : GenState) (text : String) (type : StatusType) : GenState :=
  { st with statusMessage := some (Status.mk text type) }

/-- Lines 59-62: the synchronous prologue of a run, executed before the
deferred body. -/
def generatePrologue (st : GenState) : GenState :=
  showStatus
    { st with
      isGenerating := true
      isGenerated := false
      artOutputHtml := ArtOutput.message analyzingMsg }
    "Generating... please wait." StatusType.success

/-- Lines 53-116: the whole `generateBinaryArt` callback, with the deferred
body folded in.  The early return of lines 54-57 fires when no image is
loaded or the canvas ref is absent; otherwise the prologue runs and then
the body either publishes the complete document (lines 105-107) or catches
the error and reports it (lines 108-111), resetting `isGenerating` in both
cases (line 113). -/
def generateBinaryArt (st : GenState) (originalImage : Option Bitmap)
    (canvasPresent : Bool) (charInput : List Char) (invertToggle : Bool)
    (resolution : ℤ) (ctxAvailable : Bool) (data : ℕ → ℚ) : GenState :=
  match originalImage, canvasPresent with
  | none, _ =>
      showStatus st "Please upload an image first." StatusType.error
  | _, false =>
      showStatus st "Please upload an image first." StatusType.error
  | some img, true =>
      let st1 := generatePrologue st
      match runGeneration charInput invertToggle resolution img ctxAvailable data with
      | Except.ok doc =>
          showStatus
            { st1 with
              artOutputHtml := ArtOutput.document doc
              isGenerated := true
              isGenerating := false }
            "Art generated! You can now download the file." StatusType.success
      | Except.error e =>
          showStatus { st1 with isGenerating := false }
            ("Failed to generate art: " ++ errorText e) StatusType.error

/-! Helper lemmas. -/

theorem round_mono_q {a b : ℚ} (h : a ≤ b) : round a ≤ round b := by
  rw [round_eq, round_eq]
  exact Int.floor_le_floor (by linarith)

theorem continuousWeight_eq (e : ℚ) : continuousWeight e = 300 + e / 255 * 400 := by
  simp [continuousWeight, MIN_WEIGHT, WEIGHT_RANGE, MAX_WEIGHT]
  norm_num

/-! Theorems about the claims. -/

/-- C2: for every source bitmap of width `W > 0`, height `H > 0` and every
`targetWidth ≥ 1`, the computed target grid height is
`floor(targetWidth * (H/W) * 0.55)`; in particular, for `targetWidth = 100`,
`W = 200`, `H = 100` the target height is `27`. -/
theorem target_height_formula (resolution : ℤ) (W H : ℚ) (hW : 0 < W) (hH : 0 < H)
    (hres : 1 ≤ resolution) :
    resolutionHeight resolution (Bitmap.mk W H) = ⌊(resolution : ℚ) * (H / W) * (55 / 100)⌋
    ∧ resolutionHeight 100 (Bitmap.mk 200 100) = 27 := by
  constructor
  · have h : (0.55 : ℚ) = 55 / 100 := by norm_num
    rw [resolutionHeight, h]
  · norm_num [resolutionHeight]

/-- Witness for C2 at `targetWidth = 100`, `W = 200`, `H = 100`. -/
theorem target_height_formula_witness :
    resolutionHeight 100 (Bitmap.mk 200 100) = 27 :=
  (target_height_formula 100 200 100 (by norm_num) (by norm_num) (by norm_num)).2

/-- C5: for every effective luminance in `[0, 255]` the glyph font weight is
`round(300 + (effective/255)*400)` clamped to `[300, 700]`, and the weight is
monotone in the effective luminance. -/
theorem weight_formula_and_monotone :
    (∀ e : ℚ, 0 ≤ e → e ≤ 255 →
        finalWeight e = min 700 (max 300 (round ((300 : ℚ) + e / 255 * 400)))
          ∧ 300 ≤ finalWeight e ∧ finalWeight e ≤ 700)
    ∧ ∀ a b : ℚ, 0 ≤ a → a < b → b ≤ 255 → finalWeight a ≤ finalWeight b := by
  have h300 : round ((300 : ℚ)) = 300 := by norm_num [round_eq]
  have h700 : round ((700 : ℚ)) = 700 := by norm_num [round_eq]
  constructor
  · intro e h0 h255
    have h1 : (300 : ℚ) ≤ continuousWeight e := by rw [continuousWeight_eq]; linarith
    have h2 : continuousWeight e ≤ 700 := by rw [continuousWeight_eq]; linarith
    have hfw : finalWeight e = round ((300 : ℚ) + e / 255 * 400) := by
      rw [finalWeight, show MAX_WEIGHT = (700 : ℚ) from rfl,
        show MIN_WEIGHT = (300 : ℚ) from rfl, min_eq_right h2, max_eq_right h1,
        continuousWeight_eq]
    have hrlo : (300 : ℤ) ≤ round ((300 : ℚ) + e / 255 * 400) := by
      calc (300 : ℤ) = round ((300 : ℚ)) := h300.symm
        _ ≤ _ := round_mono_q (by linarith)
    have hrhi : round ((300 : ℚ) + e / 255 * 400) ≤ 700 := by
      calc round ((300 : ℚ) + e / 255 * 400) ≤ round ((700 : ℚ)) := round_mono_q (by linarith)
        _ = 700 := h700
    refine ⟨?_, ?_, ?_⟩
    · rw [hfw, max_eq_right hrlo, min_eq_right hrhi]
    · rw [hfw]; exact hrlo
    · rw [hfw]; exact hrhi
  · intro a b h0 hab hb
    have hcw : continuousWeight a ≤ continuousWeight b := by
      rw [continuousWeight_eq, continuousWeight_eq]; linarith
    exact round_mono_q (max_le_max le_rfl (min_le_min le_rfl hcw))

/-- Witness for C5 at `a = 51`, `b = 102`. -/
theorem weight_formula_and_monotone_witness :
    finalWeight 51 = min 700 (max 300 (round ((300 : ℚ) + 51 / 255 * 400)))
    ∧ finalWeight 51 ≤ finalWeight 102 :=
  ⟨(weight_formula_and_monotone.1 51 (by norm_num) (by norm_num)).1,
   weight_formula_and_monotone.2 51 102 (by norm_num) (by norm_num) (by norm_num)⟩

/-- C6: for every effective luminance in `[0, 255]` the glyph opacity equals
`max(0.1, effective/255)`, and is therefore at least `0.1`. -/
theorem opacity_formula_and_floor (e : ℚ) (h0 : 0 ≤ e) (h255 : e ≤ 255) :
    opacity e = max (1 / 10) (e / 255) ∧ 1 / 10 ≤ opacity e := by
  have h : (0.1 : ℚ) = 1 / 10 := by norm_num
  refine ⟨by rw [opacity, h], ?_⟩
  rw [opacity, h]
  exact le_max_left _ _

/-- Witness for C6 at `e = 0`. -/
theorem opacity_formula_and_floor_witness :
    opacity 0 = max (1 / 10) ((0 : ℚ) / 255) ∧ (1 : ℚ) / 10 ≤ opacity 0 :=
  opacity_formula_and_floor 0 (by norm_num) (by norm_num)

/-- C7: the luminance computed for a sampled RGBA pixel with channel values
`(r, g, b)` is `0.299*r + 0.587*g + 0.114*b`, independent of the alpha byte
(two data arrays agreeing on the three colour channels give the same value,
whatever they hold elsewhere), and the effective luminance is `255 - luminance`
when invert is set and `luminance` otherwise. -/
theorem luminance_formula (data data2 : ℕ → ℚ) (resolution x y : ℕ) (r g b : ℚ)
    (h0r : 0 ≤ r) (hr255 : r ≤ 255) (h0g : 0 ≤ g) (hg255 : g ≤ 255)
    (h0b : 0 ≤ b) (hb255 : b ≤ 255)
    (hr : data (pixelIndex resolution x y) = r)
    (hg : data (pixelIndex resolution x y + 1) = g)
    (hb : data (pixelIndex resolution x y + 2) = b)
    (hr2 : data2 (pixelIndex resolution x y) = r)
    (hg2 : data2 (pixelIndex resolution x y + 1) = g)
    (hb2 : data2 (pixelIndex resolution x y + 2) = b) :
    luminanceAt data resolution x y = 0.299 * r + 0.587 * g + 0.114 * b
    ∧ luminanceAt data resolution x y = luminanceAt data2 resolution x y
    ∧ effectiveLuminance true (luminanceAt data resolution x y)
        = 255 - luminanceAt data resolution x y
    ∧ effectiveLuminance false (luminanceAt data resolution x y)
        = luminanceAt data resolution x y := by
  refine ⟨?_, ?_, rfl, rfl⟩
  · rw [luminanceAt, hr, hg, hb]
  · rw [luminanceAt, luminanceAt, hr, hg, hb, hr2, hg2, hb2]

/-- Witness for C7 on a constant data array (second array differing at the
alpha byte) with `r = g = b = 100`. -/
theorem luminance_formula_witness :
    luminanceAt (fun _ => 100) 1 0 0 = 0.299 * 100 + 0.587 * 100 + 0.114 * 100
    ∧ luminanceAt (fun _ => 100) 1 0 0
        = luminanceAt (fun n => if n = 3 then 7 else 100) 1 0 0 :=
  have h := luminance_formula (fun _ => 100) (fun n => if n = 3 then 7 else 100)
    1 0 0 100 100 100 (by norm_num) (by norm_num) (by norm_num) (by norm_num)
    (by norm_num) (by norm_num) rfl rfl rfl (by norm_num [pixelIndex])
    (by norm_num [pixelIndex]) (by norm_num [pixelIndex])
  ⟨h.1, h.2.1⟩

/-- C9: for every raw luminance `x` in `[0, 255]` and any cycle, the glyph
cell produced from `x` with invert off equals the glyph cell produced from
`255 - x` with invert on. -/
theorem invert_symmetry (cycle : List Char) (x : ℚ) (h0 : 0 ≤ x) (h255 : x ≤ 255) :
    glyphCell cycle false x = glyphCell cycle true (255 - x) := by
  have h : effectiveLuminance true (255 - x) = effectiveLuminance false x := by
    simp [effectiveLuminance]
  rw [glyphCell, glyphCell, h]

/-- Witness for C9 at `x = 100` with the default cycle. -/
theorem invert_symmetry_witness :
    glyphCell ['0', '1'] false 100 = glyphCell ['0', '1'] true (255 - 100) :=
  invert_symmetry ['0', '1'] 100 (by norm_num) (by norm_num)

/-- C1: for every effective luminance in `[0, 255]` and every configured
cycle, the selected character is `cycle[level mod len(cycle)]` with
`level = floor(effective / (256/14))` clamped to `[0, 13]`; with the cycle
`"AB"` the even levels select `A` and the odd levels select `B`. -/
theorem char_selection_cyclic (cycle : List Char) (hc : cycle ≠ []) (e : ℚ)
    (h0 : 0 ≤ e) (h255 : e ≤ 255) :
    selectChar cycle e
        = cycle.getD ((max 0 (min 13 ⌊e / (256 / 14)⌋) % (cycle.length : ℤ)).toNat) '0'
    ∧ selectChar ['A', 'B'] e
        = (if max 0 (min 13 ⌊e / (256 / 14)⌋) % 2 = 0 then 'A' else 'B') := by
  have hch : charLevelIndex e = max 0 (min 13 ⌊e / (256 / 14)⌋) := by
    have h14 : ((14 : ℤ) : ℚ) = (14 : ℚ) := by norm_num
    rw [charLevelIndex, NUM_CHAR_LEVELS, CHAR_LEVEL_SIZE, NUM_CHAR_LEVELS, h14]
    norm_num
  constructor
  · rw [← hch]; rfl
  · rw [← hch]
    have h2 : charLevelIndex e % 2 = 0 ∨ charLevelIndex e % 2 = 1 := by omega
    rcases h2 with h | h
    · simp [selectChar, h]
    · simp [selectChar, h]

/-- Witness for C1 at `e = 20` (level 1, an odd level) with the cycle `AB`. -/
theorem char_selection_cyclic_witness :
    selectChar ['A', 'B'] 20
      = (if max 0 (min 13 ⌊(20 : ℚ) / (256 / 14)⌋) % 2 = 0 then 'A' else 'B') :=
  (char_selection_cyclic ['A', 'B'] (by simp) 20 (by norm_num) (by norm_num)).2

/-- C10: for every user-supplied cycle string (empty and whitespace-only
included) the effective cycle has length at least 1 (with fallback
`['0', '1']` when the trimmed input is empty), and for every effective
luminance the selected character index lies below the cycle length, so the
lookup is in bounds. -/
theorem cycle_lookup_safe (input : List Char) (e : ℚ) :
    1 ≤ (effectiveCycle input).length
    ∧ (charLevelIndex e % ((effectiveCycle input).length : ℤ)).toNat
        < (effectiveCycle input).length
    ∧ (trimJS input = [] → effectiveCycle input = ['0', '1']) := by
  have hlen : 1 ≤ (effectiveCycle input).length := by
    unfold effectiveCycle
    dsimp only
    by_cases h1 : 0 < (trimJS input).length
    · rw [if_pos h1]
      split
      · simp
      · omega
    · rw [if_neg h1]
      simp
  refine ⟨hlen, ?_, ?_⟩
  · have hpos : (0 : ℤ) < ((effectiveCycle input).length : ℤ) := by exact_mod_cast hlen
    have h1 : 0 ≤ charLevelIndex e % ((effectiveCycle input).length : ℤ) :=
      Int.emod_nonneg _ (by omega)
    have h2 : charLevelIndex e % ((effectiveCycle input).length : ℤ)
        < ((effectiveCycle input).length : ℤ) := Int.emod_lt_of_pos _ hpos
    omega
  · intro ht
    simp [effectiveCycle, ht]

/-- Witness for C10 on a whitespace-only input at `e = 0`. -/
theorem cycle_lookup_safe_witness :
    1 ≤ (effectiveCycle [' ', '\t']).length ∧ effectiveCycle [' ', '\t'] = ['0', '1'] :=
  ⟨(cycle_lookup_safe [' ', '\t'] 0).1, (cycle_lookup_safe [' ', '\t'] 0).2.2 (by decide)⟩

/-- A state in which a document from an earlier successful run is on
display, used to examine what the next run does to it. -/
def previousDocState : GenState :=
  { artOutputHtml := ArtOutput.document [[GlyphCell.mk '0' 300 (1 / 10)]]
    isGenerated := true
    isGenerating := false
    statusMessage := none }

/-- C3 counterexample: at `W = 1000`, `H = 1`, `targetWidth = 1` the target
height computes to 0 and the run does fail, but with the canvas
`IndexSizeError`, not with an `EmptyCanvas` validation error: the code
performs no such validation. -/
theorem no_empty_canvas_error :
    runGeneration ['0', '1'] false 1 (Bitmap.mk 1000 1) true (fun _ => 0)
        = Except.error GenError.indexSizeError
    ∧ runGeneration ['0', '1'] false 1 (Bitmap.mk 1000 1) true (fun _ => 0)
        ≠ Except.error GenError.emptyCanvas := by
  have h : resolutionHeight 1 (Bitmap.mk 1000 1) = 0 := by norm_num [resolutionHeight]
  have hrun : runGeneration ['0', '1'] false 1 (Bitmap.mk 1000 1) true (fun _ => 0)
      = Except.error GenError.indexSizeError := by
    simp [runGeneration, h]
  exact ⟨hrun, by simp [hrun]⟩

/-- C3 amended: whenever the computed target height is 0, the run fails with
the `IndexSizeError` raised by the zero-height `getImageData` read; the
failure is caught and the output area keeps the generating placeholder, so
no blank zero-row document is published and `isGenerated` stays false. -/
theorem zero_height_fails_at_canvas (st : GenState) (img : Bitmap) (chars : List Char)
    (inv : Bool) (res : ℤ) (data : ℕ → ℚ)
    (hzero : resolutionHeight res img = 0) :
    runGeneration chars inv res img true data = Except.error GenError.indexSizeError
    ∧ (generateBinaryArt st (some img) true chars inv res true data).artOutputHtml
        = ArtOutput.message analyzingMsg
    ∧ (generateBinaryArt st (some img) true chars inv res true data).isGenerated = false := by
  have h1 : runGeneration chars inv res img true data
      = Except.error GenError.indexSizeError := by
    simp [runGeneration, hzero]
  refine ⟨h1, ?_, ?_⟩ <;> simp [generateBinaryArt, generatePrologue, showStatus, h1]

/-- Witness for the amended C3 on the zero-height input of the claim. -/
theorem zero_height_fails_at_canvas_witness :
    runGeneration ['0', '1'] false 1 (Bitmap.mk 1000 1) true (fun _ => 0)
        = Except.error GenError.indexSizeError :=
  (zero_height_fails_at_canvas initialState (Bitmap.mk 1000 1) ['0', '1'] false 1
    (fun _ => 0) (by norm_num [resolutionHeight])).1

/-- C4 counterexample: a run that fails does not leave the previously
published document visible — line 61 already replaced it with the
generating placeholder before the pipeline ran.  Starting from a state
displaying a document of one cell, a failing run (zero target height)
ends with the output area changed away from that document even though no
new run completed successfully. -/
theorem previous_document_not_preserved :
    (generateBinaryArt previousDocState (some (Bitmap.mk 1000 1)) true ['0', '1'] false 1
        true (fun _ => 0)).artOutputHtml ≠ previousDocState.artOutputHtml
    ∧ (generateBinaryArt previousDocState (some (Bitmap.mk 1000 1)) true ['0', '1'] false 1
        true (fun _ => 0)).isGenerated = false := by
  have h : resolutionHeight 1 (Bitmap.mk 1000 1) = 0 := by norm_num [resolutionHeight]
  have hrun : runGeneration ['0', '1'] false 1 (Bitmap.mk 1000 1) true (fun _ => 0)
      = Except.error GenError.indexSizeError := by
    simp [runGeneration, h]
  constructor
  · simp [generateBinaryArt, generatePrologue, showStatus, hrun, previousDocState]
  · simp [generateBinaryArt, generatePrologue, showStatus, hrun]

/-- C4 amended: the document itself is published atomically — a failing run
publishes no document at all (the output area holds the generating
placeholder and `isGenerated` is false), and a successful run publishes the
complete grid in a single update, with one full-width row per target row.
The previous document, however, is already replaced by the placeholder when
the run starts, so it does not stay visible through a failed run. -/
theorem atomic_publication (st : GenState) (img : Bitmap) (chars : List Char)
    (inv : Bool) (res : ℤ) (ctx : Bool) (data : ℕ → ℚ) :
    (∀ e, runGeneration chars inv res img ctx data = Except.error e →
        (generateBinaryArt st (some img) true chars inv res ctx data).artOutputHtml
            = ArtOutput.message analyzingMsg
          ∧ (generateBinaryArt st (some img) true chars inv res ctx data).isGenerated = false)
    ∧ ∀ doc, runGeneration chars inv res img ctx data = Except.ok doc →
        (generateBinaryArt st (some img) true chars inv res ctx data).artOutputHtml
            = ArtOutput.document doc
          ∧ (generateBinaryArt st (some img) true chars inv res ctx data).isGenerated = true
          ∧ doc.length = (resolutionHeight res img).toNat
          ∧ ∀ row ∈ doc, row.length = res.toNat := by
  constructor
  · intro e he
    constructor <;> simp [generateBinaryArt, generatePrologue, showStatus, he]
  · intro doc hdoc
    have hdoc2 : doc
        = artDocument data (effectiveCycle chars) inv res.toNat (resolutionHeight res img).toNat := by
      unfold runGeneration at hdoc
      dsimp only at hdoc
      split at hdoc
      · exact absurd hdoc (by simp)
      · split at hdoc
        · exact absurd hdoc (by simp)
        · simp only [Except.ok.injEq] at hdoc
          exact hdoc.symm
    refine ⟨?_, ?_, ?_, ?_⟩
    · simp [generateBinaryArt, generatePrologue, showStatus, hdoc]
    · simp [generateBinaryArt, generatePrologue, showStatus, hdoc]
    · rw [hdoc2]
      simp [artDocument]
    · intro row hrow
      rw [hdoc2] at hrow
      simp only [artDocument, List.mem_map, List.mem_range] at hrow
      obtain ⟨y, _, hy⟩ := hrow
      rw [← hy]
      simp

/-- Witness for the amended C4: a failing run and a succeeding run at
concrete inputs. -/
theorem atomic_publication_witness :
    (generateBinaryArt initialState (some (Bitmap.mk 1000 1)) true ['0', '1'] false 1 true
        (fun _ => 0)).isGenerated = false
    ∧ (generateBinaryArt initialState (some (Bitmap.mk 1 1)) true ['0', '1'] false 2 true
        (fun _ => 0)).artOutputHtml
      = ArtOutput.document (artDocument (fun _ => 0) (effectiveCycle ['0', '1']) false 2 1) := by
  have hfail : runGeneration ['0', '1'] false 1 (Bitmap.mk 1000 1) true (fun _ => 0)
      = Except.error GenError.indexSizeError := by
    have h : resolutionHeight 1 (Bitmap.mk 1000 1) = 0 := by norm_num [resolutionHeight]
    simp [runGeneration, h]
  have hok : runGeneration ['0', '1'] false 2 (Bitmap.mk 1 1) true (fun _ => 0)
      = Except.ok (artDocument (fun _ => 0) (effectiveCycle ['0', '1']) false 2 1) := by
    have h : resolutionHeight 2 (Bitmap.mk 1 1) = 1 := by norm_num [resolutionHeight]
    simp [runGeneration, h]
  exact ⟨((atomic_publication initialState (Bitmap.mk 1000 1) ['0', '1'] false 1 true
      (fun _ => 0)).1 GenError.indexSizeError hfail).2,
    ((atomic_publication initialState (Bitmap.mk 1 1) ['0', '1'] false 2 true
      (fun _ => 0)).2 (artDocument (fun _ => 0) (effectiveCycle ['0', '1']) false 2 1) hok).1⟩

/-- C8 counterexample: at `targetWidth = 0` on a valid bitmap the run does
not fail with an `InvalidDimensions` validation error; it reaches the canvas
stage and fails there with `IndexSizeError`. -/
theorem no_invalid_dimensions_error :
    runGeneration ['0', '1'] false 0 (Bitmap.mk 100 100) true (fun _ => 0)
        = Except.error GenError.indexSizeError
    ∧ runGeneration ['0', '1'] false 0 (Bitmap.mk 100 100) true (fun _ => 0)
        ≠ Except.error GenError.invalidDimensions := by
  have hrun : runGeneration ['0', '1'] false 0 (Bitmap.mk 100 100) true (fun _ => 0)
      = Except.error GenError.indexSizeError := by
    simp [runGeneration]
  exact ⟨hrun, by simp [hrun]⟩

/-- C8 amended: the core performs no dimension validation of its own.  With
`targetWidth = 0` the run proceeds to the canvas stage, where the zero-width
`getImageData` read raises `IndexSizeError`; the error is caught and
reported to the caller as the generic failure status, and no document is
published. -/
theorem zero_width_fails_at_canvas (img : Bitmap) (chars : List Char) (inv : Bool)
    (data : ℕ → ℚ) :
    runGeneration chars inv 0 img true data = Except.error GenError.indexSizeError
    ∧ ∀ st : GenState,
        (generateBinaryArt st (some img) true chars inv 0 true data).statusMessage
            = some (Status.mk ("Failed to generate art: " ++ errorText GenError.indexSizeError)
                StatusType.error)
          ∧ (generateBinaryArt st (some img) true chars inv 0 true data).isGenerated = false := by
  have hrun : runGeneration chars inv 0 img true data
      = Except.error GenError.indexSizeError := by
    simp [runGeneration]
  refine ⟨hrun, fun st => ?_⟩
  constructor <;> simp [generateBinaryArt, generatePrologue, showStatus, hrun]

end BinaryArt
